import Mathlib

/-!
Verification of the event-loop responsiveness sampler
(`toolkit/xre/EventTracer.cpp`).

The embedding models:
  * the C `int` range and `atoi` (libc, external to the repository;
    modelled per ISO C, with the saturating overflow behaviour that the
    source's `INT_MAX`/`INT_MIN` sentinel guard anticipates);
  * configuration resolution for `MOZ_INSTRUMENT_EVENT_LOOP_THRESHOLD`
    and `MOZ_INSTRUMENT_EVENT_LOOP_INTERVAL` (`TracerThread`,
    lines 97-124);
  * one iteration of the sampler loop (lines 130-160): probe outcome,
    sample-line emission, pacing (`next_sleep`), and the pre-sleep exit
    check;
  * the whole `TracerThread` run: log-file opening (`fopen(envfile, "w")`,
    lines 102-108), start line, loop, stop line, close (lines 126-167);
  * the lifecycle functions `InitEventTracing` / `ShutdownEventTracing`
    (lines 176-217) as a transition function on the process state
    (`sTracerThread`, widget-tracing resources, live sampler threads).

Durations are rationals measured in milliseconds: `TimeDuration` is
double-backed, so measured durations carry sub-millisecond precision.
`PRIntervalTime` values are naturals, with ticks-per-second taken as
1000 so that one tick is one millisecond (the identification the source
relies on when it mixes `PRIntervalTime` values with millisecond counts).
-/

/-! ## C integers and `atoi` -/

def intMax : ℤ := 2 ^ 31 - 1

def intMin : ℤ := -(2 ^ 31)

/-- Longest leading run of decimal digits of `cs`, accumulated onto `acc`
(the digit loop of `atoi`, over unbounded integers). -/
def parseDigits : List Char → ℕ → ℕ
  | [], acc => acc
  | c :: cs, acc => if c.isDigit then parseDigits cs (10 * acc + (c.toNat - 48)) else acc

/-- ISO C `isspace` for the default locale. -/
def isSpaceC (c : Char) : Bool :=
  c = ' ' || c = '\t' || c = '\n' || c = '\x0b' || c = '\x0c' || c = '\r'

/-- The mathematical value `atoi` converts: skip leading whitespace, an
optional sign, then a longest digit run (no digits gives 0). -/
def atoiCore : List Char → ℤ
  | [] => 0
  | c :: cs =>
    if isSpaceC c then atoiCore cs
    else if c = '-' then -((parseDigits cs 0 : ℕ) : ℤ)
    else if c = '+' then ((parseDigits cs 0 : ℕ) : ℤ)
    else ((parseDigits (c :: cs) 0 : ℕ) : ℤ)

/-- Saturate an unbounded integer into the `int` range. -/
def clampInt (v : ℤ) : ℤ :=
  if v < intMin then intMin else if intMax < v then intMax else v

/-- `atoi` (libc, not part of this repository). Modelled per ISO C; a
value outside the `int` range saturates to `INT_MAX`/`INT_MIN`, the
behaviour the source's sentinel guard `val != INT_MAX && val != INT_MIN`
anticipates. -/
def atoi (s : String) : ℤ := clampInt (atoiCore s.data)

/-! ## Configuration resolution (`TracerThread`, lines 97-124) -/

/-- `PR_MillisecondsToInterval` with ticks-per-second 1000: one interval
tick per millisecond, so the conversion is the identity. Its argument is
a `PRUint32`; negative `int` values are converted by `toUInt32Z` first. -/
def prMillisecondsToInterval (ms : ℕ) : ℕ := ms

/-- C implicit conversion of an `int` value to `PRUint32` (reduction
modulo 2^32). -/
def toUInt32Z (v : ℤ) : ℕ := (v % (2 ^ 32 : ℤ)).toNat

/-- Resolution of one duration override (threshold or interval), from
lines 110-124: the override is consulted only when the variable is set
and non-empty, and its `atoi` value is accepted exactly when it is
neither `0` nor `INT_MAX` nor `INT_MIN`; otherwise the default stands. -/
def resolveDuration : Option String → ℕ → ℕ
  | none, dflt => dflt
  | some s, dflt =>
    if s.isEmpty then dflt
    else if atoi s ≠ 0 ∧ atoi s ≠ intMax ∧ atoi s ≠ intMin
    then prMillisecondsToInterval (toUInt32Z (atoi s))
    else dflt

/-- The sampler configuration held by `TracerThread` (threshold and
interval are `PRIntervalTime` ticks = milliseconds). -/
structure Config where
  logTracing : Bool
  threshold : ℕ
  interval : ℕ

/-- Process environment and external open outcome seen by the thread. -/
structure Env where
  outputEnv : Option String
  openOk : Bool
  thresholdEnv : Option String
  intervalEnv : Option String

/-- Configuration resolution of `TracerThread` (lines 97-124): defaults
`PR_MillisecondsToInterval(20)` and `PR_MillisecondsToInterval(10)`,
each overridable from the environment. -/
def resolveConfig (e : Env) (logTracing : Bool) : Config :=
  ⟨logTracing,
   resolveDuration e.thresholdEnv (prMillisecondsToInterval 20),
   resolveDuration e.intervalEnv (prMillisecondsToInterval 10)⟩

/-! ## Log lines and one loop iteration (`TracerThread`, lines 126-164) -/

/-- A log line written by the tracer thread. Timestamps are
`PR_Now() / PR_USEC_PER_MSEC` (milliseconds since the epoch). -/
inductive Line where
  | start : ℕ → Line
  | sample : ℕ → ℤ → Line
  | stop : ℕ → Line
  deriving DecidableEq

def Line.isStart : Line → Bool
  | .start _ => true
  | _ => false

def Line.isSample : Line → Bool
  | .sample _ _ => true
  | _ => false

def Line.isStop : Line → Bool
  | .stop _ => true
  | _ => false

/-- C cast from `double` to `int`: truncation toward zero. -/
def cIntTrunc (q : ℚ) : ℤ := if 0 ≤ q then ⌊q⌋ else -⌊-q⌋

/-- Modelled from the spec: `TimeDuration::ToSecondsSigDigits`
(`mozilla/TimeStamp.h`, part of this repository but not under `src/`).
The spec describes the logged value only as integral milliseconds
obtained from a higher-precision measurement, its design notes adding
that the source truncates the clock difference; the clock resolution is
modelled as exact, so the conversion is plain division into seconds. -/
def toSecondsSigDigits (d : ℚ) : ℚ := d / 1000

/-- The duration printed on a sample line:
`int(duration.ToSecondsSigDigits() * 1000)` (line 144), for a measured
duration of `d` milliseconds. -/
def sampleValue (d : ℚ) : ℤ := cIntTrunc (toSecondsSigDigits d * 1000)

/-- External observations consumed by one iteration of the sampler
loop: the `sExit` value read at the `while` condition (line 130), the
probe outcome (`none` when `FireAndWaitForTracerEvent` returned false,
`some d` when it completed after `d` measured milliseconds), the
`PR_Now` millisecond timestamp used on a sample line, and the `sExit`
value read by the pre-sleep check (line 157). -/
structure Iter where
  exitBefore : Bool
  probe : Option ℚ
  now : ℕ
  exitAfterProbe : Bool

/-- Lines emitted by one iteration's body (lines 138-145): when the
probe completes, a sample line exactly when logging is on and the
measured duration strictly exceeds the threshold; an interrupted probe
emits nothing. -/
def iterLines (c : Config) (it : Iter) : List Line :=
  match it.probe with
  | none => []
  | some d =>
    if c.logTracing = true ∧ (c.threshold : ℚ) < d
    then [Line.sample it.now (sampleValue d)]
    else []

/-- The `next_sleep` value holding after one iteration's body
(lines 133 and 147-154): initialised to the interval; when the probe
completes it becomes `interval - int(d)` if `interval > d`, else `0`;
an interrupted probe leaves it untouched. -/
def nextSleep (c : Config) (it : Iter) : ℕ :=
  match it.probe with
  | none => c.interval
  | some d =>
    if d < (c.interval : ℚ) then c.interval - (cIntTrunc d).toNat else 0

/-- The sleep performed at the end of an iteration (lines 157-159):
`PR_Sleep(next_sleep)` runs only when `next_sleep` is nonzero and the
exit flag read there is still false. -/
def iterSleep (c : Config) (it : Iter) : Option ℕ :=
  if nextSleep c it ≠ 0 ∧ it.exitAfterProbe = false then some (nextSleep c it) else none

/-- Lines emitted by the `while (!sExit)` loop (lines 130-160) across a
finite schedule of iterations; the loop stops at the first iteration
whose `while`-condition read of `sExit` is true (an exhausted schedule
stands for that read returning true). -/
def loopLines (c : Config) : List Iter → List Line
  | [] => []
  | it :: rest =>
    if it.exitBefore then [] else iterLines c it ++ loopLines c rest

/-! ## The whole thread run (`TracerThread`, lines 88-170) -/

/-- The log file the thread opened, if any: `fopen(envfile, "w")` is
attempted whenever the output override is set (lines 103-106), and mode
`"w"` truncates the named file to zero length the moment the open
succeeds — before and regardless of any write. -/
def openedLogFile (e : Env) : Option String :=
  match e.outputEnv with
  | some p => if e.openOk then some p else none
  | none => none

/-- Observable effects of one `TracerThread` run. `openedFile = some p`
records that `p` was opened (hence truncated) in write mode; `lines`
are the log lines written to the active sink in order; `sinkIsFile`
tells whether that sink is the opened file rather than stdout;
`closedFile` records the final `fclose` (line 166-167). -/
structure ThreadRun where
  openedFile : Option String
  lines : List Line
  sinkIsFile : Bool
  closedFile : Bool

/-- The full `TracerThread` run (lines 88-170): resolve configuration,
open the sink, write the start line when logging is enabled, run the
loop over the schedule, write the stop line when logging is enabled,
and close the file if one was opened. -/
def tracerThread (e : Env) (logTracing : Bool) (ts0 ts1 : ℕ) (sched : List Iter) : ThreadRun :=
  let c := resolveConfig e logTracing
  let opened := openedLogFile e
  ⟨opened,
   (if logTracing then [Line.start ts0] else []) ++ loopLines c sched ++
     (if logTracing then [Line.stop ts1] else []),
   opened.isSome,
   opened.isSome⟩

/-! ## Lifecycle (`InitEventTracing` / `ShutdownEventTracing`, lines 176-217) -/

/-- Process-wide lifecycle state: whether `sTracerThread` is non-null,
whether the widget-tracing collaborator's resources are currently
initialised, and how many sampler threads are alive. -/
structure LifecycleState where
  tracerThread : Bool
  widgetInit : Bool
  liveThreads : ℕ

/-- `InitEventTracing` (lines 176-200), parameterised by the outcomes
of its two external calls: whether `InitWidgetTracing()` succeeds and
whether `PR_CreateThread` succeeds. Returns the boolean result paired
with the successor state. On the spawn-failure path the function
returns false with `sTracerThread` still null, but `InitWidgetTracing`
has already succeeded and no cleanup call is made. -/
def initEventTracing (widgetOk spawnOk : Bool) (s : LifecycleState) : Bool × LifecycleState :=
  if s.tracerThread then (true, s)
  else if widgetOk = false then (false, s)
  else if spawnOk then (true, ⟨true, true, s.liveThreads + 1⟩)
  else (false, ⟨false, true, s.liveThreads⟩)

/-- `ShutdownEventTracing` (lines 202-217): a no-op without a running
tracer; otherwise set the exit flag, join the thread (it terminates and
is no longer alive), clear the handle, and clean up the widget
backend. -/
def shutdownEventTracing (s : LifecycleState) : LifecycleState :=
  if s.tracerThread = false then s
  else ⟨false, false, s.liveThreads - 1⟩

/-- The intended relation between the thread handle and the number of
live sampler threads: the handle is non-null exactly when one sampler
thread is alive. -/
def lifecycleInv (s : LifecycleState) : Prop :=
  s.liveThreads = if s.tracerThread = true then 1 else 0

/-! ## Helper lemmas -/

theorem intMax_eq : intMax = 2147483647 := by norm_num [intMax]

theorem intMin_eq : intMin = -2147483648 := by norm_num [intMin]

theorem atoi_range (s : String) : intMin ≤ atoi s ∧ atoi s ≤ intMax := by
  have hbound : intMin ≤ intMax := by rw [intMin_eq, intMax_eq]; omega
  unfold atoi clampInt
  split
  · exact ⟨le_refl _, hbound⟩
  · split
    · exact ⟨hbound, le_refl _⟩
    · constructor <;> omega

theorem resolveDuration_accept (s : String) (dflt : ℕ)
    (hne : s.isEmpty = false)
    (h : atoi s ≠ 0 ∧ atoi s ≠ intMax ∧ atoi s ≠ intMin) :
    resolveDuration (some s) dflt = toUInt32Z (atoi s) := by
  simp only [resolveDuration]
  rw [hne]
  rw [if_neg (by simp)]
  rw [if_pos h]
  rfl

/-- C1: for every loop iteration in which the probe completes with
measured duration `d`, a sample line is emitted if and only if logging
is enabled and `d` strictly exceeds the configured threshold. -/
theorem c1_sample_iff_threshold (c : Config) (it : Iter) (d : ℚ)
    (h : it.probe = some d) :
    (∃ ts r, Line.sample ts r ∈ iterLines c it) ↔
      (c.logTracing = true ∧ (c.threshold : ℚ) < d) := by
  rcases it with ⟨eb, p, nw, ea⟩
  cases h
  by_cases hc : c.logTracing = true ∧ (c.threshold : ℚ) < d
  · simp only [iterLines, if_pos hc]
    simp [hc]
  · simp only [iterLines, if_neg hc]
    simp [hc]

theorem c1_sample_iff_threshold_witness :
    (∃ ts r, Line.sample ts r ∈ iterLines ⟨true, 20, 10⟩ ⟨false, some 25, 7, false⟩) ↔
      (true = true ∧ ((20 : ℕ) : ℚ) < 25) :=
  c1_sample_iff_threshold ⟨true, 20, 10⟩ ⟨false, some 25, 7, false⟩ 25 rfl

/-- C2 as stated fails: with interval 10 and a completed probe measuring
9.5 ms, the computed sleep is `10 - int(9.5) = 1`, not
`max(0, 10 - 9.5) = 1/2` — the code truncates the measured duration
before subtracting. -/
theorem c2_counterexample :
    ¬ (((nextSleep ⟨true, 20, 10⟩ ⟨false, some (19/2), 0, false⟩ : ℕ) : ℚ) =
        max 0 ((10 : ℚ) - 19/2)) := by
  have hfloor : ⌊(19/2 : ℚ)⌋ = 9 := by norm_num
  have h1 : nextSleep ⟨true, 20, 10⟩ ⟨false, some (19/2), 0, false⟩ = 1 := by
    simp only [nextSleep]
    rw [if_pos (by norm_num)]
    unfold cIntTrunc
    rw [if_pos (by norm_num), hfloor]
    rfl
  rw [h1, max_eq_right (by norm_num)]
  norm_num

/-- C2 amended: for every completed probe with measured duration
`d ≥ 0`, the sleep computed for the next iteration is
`max(0, interval - ⌊d⌋)` — the duration is truncated to whole
milliseconds before the subtraction; for integral `d` this coincides
with `max(0, interval - d)`. -/
theorem c2_next_sleep_trunc (c : Config) (it : Iter) (d : ℚ)
    (h : it.probe = some d) (hd : 0 ≤ d) :
    (nextSleep c it : ℤ) = max 0 ((c.interval : ℤ) - ⌊d⌋) := by
  rcases it with ⟨eb, p, nw, ea⟩
  cases h
  have hfl : cIntTrunc d = ⌊d⌋ := by unfold cIntTrunc; rw [if_pos hd]
  simp only [nextSleep, hfl]
  by_cases hlt : d < (c.interval : ℚ)
  · rw [if_pos hlt]
    have h1 : (0 : ℤ) ≤ ⌊d⌋ := Int.floor_nonneg.mpr hd
    have h2 : ⌊d⌋ < (c.interval : ℤ) := Int.floor_lt.mpr (by exact_mod_cast hlt)
    rw [max_eq_right (by omega)]
    omega
  · rw [if_neg hlt]
    have h2 : (c.interval : ℤ) ≤ ⌊d⌋ := Int.le_floor.mpr (by push_cast; exact not_lt.mp hlt)
    rw [max_eq_left (by omega)]
    simp

theorem c2_next_sleep_trunc_witness :
    (nextSleep ⟨true, 20, 10⟩ ⟨false, some (19/2), 0, false⟩ : ℤ) =
      max 0 ((10 : ℤ) - ⌊(19/2 : ℚ)⌋) :=
  c2_next_sleep_trunc ⟨true, 20, 10⟩ ⟨false, some (19/2), 0, false⟩ (19/2) rfl (by norm_num)

theorem loopLines_nil_of_not_logging (c : Config) (h : c.logTracing = false)
    (sched : List Iter) : loopLines c sched = [] := by
  induction sched with
  | nil => rfl
  | cons it rest ih =>
    simp only [loopLines]
    split
    · rfl
    · rw [ih]
      rcases hp : it.probe with _ | d
      · simp [iterLines, hp]
      · simp [iterLines, hp, h]

/-- C3 as stated fails: starting with logging disabled while an
output-path override is set writes no log line, yet the run opens the
override file in mode "w", which truncates it — the sink is not left
untouched. -/
theorem c3_counterexample :
    (tracerThread ⟨some "trace.log", true, none, none⟩ false 0 1 []).lines = [] ∧
      (tracerThread ⟨some "trace.log", true, none, none⟩ false 0 1 []).openedFile =
        some "trace.log" := by
  constructor <;> rfl

/-- C3 amended: if start is called with logging disabled and then stop
is called, no log line is ever written; however the output-path file,
when configured and openable, is still opened in write mode (truncating
it) and closed — it is untouched only when no output path is set or the
open fails. -/
theorem c3_logging_disabled_no_lines (e : Env) (ts0 ts1 : ℕ) (sched : List Iter) :
    (tracerThread e false ts0 ts1 sched).lines = [] ∧
      ((tracerThread e false ts0 ts1 sched).openedFile = none ↔
        (e.outputEnv = none ∨ e.openOk = false)) := by
  constructor
  · simp [tracerThread, loopLines_nil_of_not_logging (resolveConfig e false) rfl sched]
  · simp only [tracerThread, openedLogFile]
    rcases e with ⟨o, ok, te, ie⟩
    rcases o with _ | p
    · simp
    · cases ok <;> simp

/-- C4 as stated fails: the override string "2147483647" parses to the
nonzero, non-overflowing integer 2147483647 (exactly INT_MAX, hence
representable), yet the resolver falls back to the default of 20 ms. -/
theorem c4_counterexample :
    atoiCore "2147483647".data = 2147483647 ∧
      (0 : ℤ) < 2147483647 ∧ (2147483647 : ℤ) ≤ intMax ∧
      resolveDuration (some "2147483647") 20 = 20 ∧ (20 : ℕ) ≠ 2147483647 := by
  refine ⟨by decide, by decide, by rw [intMax_eq], by decide, by decide⟩

/-- C4 amended: an override that parses to a positive integer strictly
below INT_MAX resolves to that value in milliseconds; an absent, empty,
zero-parsing, or non-numeric override — and likewise one parsing (or
overflow-saturating) to the sentinels INT_MAX or INT_MIN — resolves to
the defaults, 20 ms for the threshold and 10 ms for the interval. -/
theorem c4_resolve_override :
    (∀ s v dflt, s.isEmpty = false → atoi s = v → 0 < v → v < intMax →
        resolveDuration (some s) dflt = v.toNat) ∧
      (∀ dflt, resolveDuration none dflt = dflt) ∧
      (∀ s dflt, (s.isEmpty = true ∨ atoi s = 0 ∨ atoi s = intMax ∨ atoi s = intMin) →
        resolveDuration (some s) dflt = dflt) := by
  refine ⟨?_, fun dflt => rfl, ?_⟩
  · intro s v dflt hne hv h0 hmax
    have hmin : intMin < v := by rw [intMin_eq]; omega
    rw [resolveDuration_accept s dflt hne (by rw [hv]; exact ⟨by omega, by omega, by omega⟩)]
    rw [hv]
    unfold toUInt32Z
    rw [intMax_eq] at hmax
    omega
  · intro s dflt h
    rcases h with h | h | h | h
    · simp [resolveDuration, h]
    all_goals
      simp only [resolveDuration]
      split
      · rfl
      · rw [if_neg (by simp [h])]

/-- C4 amended, instantiated: "5" resolves to 5 ms, an absent override
resolves to the default, and "0" resolves to the default. -/
theorem c4_resolve_override_witness :
    resolveDuration (some "5") 20 = 5 ∧ resolveDuration none 20 = 20 ∧
      resolveDuration (some "0") 10 = 10 := by
  refine ⟨?_, c4_resolve_override.2.1 20, ?_⟩
  · exact c4_resolve_override.1 "5" 5 20 (by decide) (by decide) (by decide)
      (by rw [intMax_eq]; decide)
  · exact c4_resolve_override.2.2 "0" 10 (Or.inr (Or.inl (by decide)))

/-- C10: an override string parsing to a negative value other than
INT_MIN is accepted by the resolver — the guard never rejects a value
for being negative; the accepted value passes through the implicit
int-to-PRUint32 conversion, so it differs from the default. -/
theorem c10_negative_accepted (s : String) (dflt : ℕ) (v : ℤ)
    (hne : s.isEmpty = false) (hv : atoi s = v) (hneg : v < 0) (hmin : v ≠ intMin)
    (hd : (dflt : ℤ) < 2147483648) :
    resolveDuration (some s) dflt = toUInt32Z v ∧ resolveDuration (some s) dflt ≠ dflt := by
  have hr := atoi_range s
  rw [hv, intMin_eq, intMax_eq] at hr
  rw [intMin_eq] at hmin
  have hacc : resolveDuration (some s) dflt = toUInt32Z v := by
    rw [resolveDuration_accept s dflt hne
      (by rw [hv, intMax_eq, intMin_eq]; exact ⟨by omega, by omega, by omega⟩), hv]
  refine ⟨hacc, ?_⟩
  rw [hacc]
  unfold toUInt32Z
  have h32 : (2 : ℤ) ^ 32 = 4294967296 := by norm_num
  rw [h32]
  omega

theorem c10_negative_accepted_witness :
    resolveDuration (some "-5") 20 = toUInt32Z (-5) ∧
      resolveDuration (some "-5") 20 ≠ 20 :=
  c10_negative_accepted "-5" 20 (-5) (by decide) (by decide) (by decide)
    (by rw [intMin_eq]; decide) (by decide)

/-- C5 as stated fails: with no tracer running, widget initialisation
succeeding, and thread creation failing, start returns failure and
leaves no sampler thread — but the widget-tracing collaborator's
resources remain initialised, since no cleanup call is made on that
path. -/
theorem c5_counterexample :
    (initEventTracing true false ⟨false, false, 0⟩).1 = false ∧
      (initEventTracing true false ⟨false, false, 0⟩).2.tracerThread = false ∧
      (initEventTracing true false ⟨false, false, 0⟩).2.widgetInit = true := by
  refine ⟨rfl, rfl, rfl⟩

/-- C5 amended: when start fails because the collaborator's
initialisation fails, it returns failure with the state unchanged; when
it fails because the sampler thread cannot be spawned, it returns
failure and no sampler thread exists, but the collaborator's resources
remain initialised (they are not released on that path). -/
theorem c5_start_failure (sp : Bool) (s : LifecycleState) (h : s.tracerThread = false) :
    initEventTracing false sp s = (false, s) ∧
      ((initEventTracing true false s).1 = false ∧
        (initEventTracing true false s).2.tracerThread = false ∧
        (initEventTracing true false s).2.widgetInit = true) := by
  unfold initEventTracing
  rw [h]
  simp

theorem c5_start_failure_witness :
    initEventTracing false true ⟨false, true, 0⟩ = (false, ⟨false, true, 0⟩) ∧
      ((initEventTracing true false ⟨false, true, 0⟩).1 = false ∧
        (initEventTracing true false ⟨false, true, 0⟩).2.tracerThread = false ∧
        (initEventTracing true false ⟨false, true, 0⟩).2.widgetInit = true) :=
  c5_start_failure true ⟨false, true, 0⟩ rfl

/-- C6: a start call while a sampler is already running returns success
with the state unchanged (no second thread is spawned), and every start
call preserves the handle/thread-count relation, keeping at most one
sampler thread alive. -/
theorem c6_single_sampler (w sp : Bool) (s : LifecycleState) (h : lifecycleInv s) :
    (s.tracerThread = true → initEventTracing w sp s = (true, s)) ∧
      lifecycleInv (initEventTracing w sp s).2 ∧
      (initEventTracing w sp s).2.liveThreads ≤ 1 := by
  unfold lifecycleInv at *
  unfold initEventTracing
  rcases s with ⟨t, wi, n⟩
  simp only at h
  cases t <;> cases w <;> cases sp <;> simp_all

theorem c6_single_sampler_witness :
    (true = true → initEventTracing true true ⟨true, true, 1⟩ = (true, ⟨true, true, 1⟩)) ∧
      lifecycleInv (initEventTracing true true ⟨true, true, 1⟩).2 ∧
      (initEventTracing true true ⟨true, true, 1⟩).2.liveThreads ≤ 1 :=
  c6_single_sampler true true ⟨true, true, 1⟩ (by simp [lifecycleInv])

theorem loopLines_all_samples (c : Config) (sched : List Iter) :
    ∀ l ∈ loopLines c sched, l.isSample = true := by
  induction sched with
  | nil => intro l hl; simp [loopLines] at hl
  | cons it rest ih =>
    intro l hl
    simp only [loopLines] at hl
    split at hl
    · simp at hl
    · rcases List.mem_append.mp hl with h1 | h2
      · rcases hp : it.probe with _ | d
        · simp [iterLines, hp] at h1
        · simp only [iterLines, hp] at h1
          split at h1
          · simp at h1
            rw [h1]
            rfl
          · simp at h1
      · exact ih l h2

theorem isStart_eq_false_of_isSample (l : Line) (h : l.isSample = true) :
    l.isStart = false := by
  cases l <;> simp_all [Line.isSample, Line.isStart]

theorem isStop_eq_false_of_isSample (l : Line) (h : l.isSample = true) :
    l.isStop = false := by
  cases l <;> simp_all [Line.isSample, Line.isStop]

/-- C7: for a single start/stop cycle with logging enabled, the lines
written to the sink are one start line, then only sample lines, then
one stop line: the start line precedes every sample line, the stop line
follows every sample line, and each occurs exactly once. -/
theorem c7_line_order (e : Env) (ts0 ts1 : ℕ) (sched : List Iter) :
    ∃ mid, (tracerThread e true ts0 ts1 sched).lines =
        Line.start ts0 :: (mid ++ [Line.stop ts1]) ∧
      (∀ l ∈ mid, l.isSample = true) ∧
      (tracerThread e true ts0 ts1 sched).lines.countP (fun l => l.isStart) = 1 ∧
      (tracerThread e true ts0 ts1 sched).lines.countP (fun l => l.isStop) = 1 := by
  have hall := loopLines_all_samples (resolveConfig e true) sched
  have hshape : (tracerThread e true ts0 ts1 sched).lines =
      Line.start ts0 :: (loopLines (resolveConfig e true) sched ++ [Line.stop ts1]) := by
    simp [tracerThread]
  refine ⟨loopLines (resolveConfig e true) sched, hshape, hall, ?_, ?_⟩
  · rw [hshape, List.countP_cons, List.countP_append]
    have h0 : (loopLines (resolveConfig e true) sched).countP (fun l => l.isStart) = 0 :=
      List.countP_eq_zero.mpr (fun l hl => by
        simp [isStart_eq_false_of_isSample l (hall l hl)])
    rw [h0]
    rfl
  · rw [hshape, List.countP_cons, List.countP_append]
    have h0 : (loopLines (resolveConfig e true) sched).countP (fun l => l.isStop) = 0 :=
      List.countP_eq_zero.mpr (fun l hl => by
        simp [isStop_eq_false_of_isSample l (hall l hl)])
    rw [h0]
    rfl

/-- C8: in an iteration whose probe is interrupted, no log line is
emitted, the next-sleep value stays at the full configured interval,
and what follows is governed by the exit checks: the pre-sleep check
suppresses the sleep once the exit flag is set, and the iteration
contributes nothing to the remainder of the loop's output. -/
theorem c8_interrupted_iteration (c : Config) (it : Iter) (h : it.probe = none) :
    iterLines c it = [] ∧ nextSleep c it = c.interval ∧
      (it.exitAfterProbe = true → iterSleep c it = none) ∧
      (∀ rest : List Iter, it.exitBefore = false →
        loopLines c (it :: rest) = loopLines c rest) := by
  rcases it with ⟨eb, p, nw, ea⟩
  cases h
  refine ⟨rfl, rfl, ?_, ?_⟩
  · intro hea
    simp [iterSleep, show ea = true from hea]
  · intro rest heb
    simp [loopLines, show eb = false from heb, iterLines]

theorem c8_interrupted_iteration_witness :
    iterLines ⟨true, 20, 10⟩ ⟨false, none, 0, true⟩ = [] ∧
      nextSleep ⟨true, 20, 10⟩ ⟨false, none, 0, true⟩ = (⟨true, 20, 10⟩ : Config).interval ∧
      ((⟨false, none, 0, true⟩ : Iter).exitAfterProbe = true →
        iterSleep ⟨true, 20, 10⟩ ⟨false, none, 0, true⟩ = none) ∧
      (∀ rest : List Iter, (⟨false, none, 0, true⟩ : Iter).exitBefore = false →
        loopLines ⟨true, 20, 10⟩ ((⟨false, none, 0, true⟩ : Iter) :: rest) =
          loopLines ⟨true, 20, 10⟩ rest) :=
  c8_interrupted_iteration ⟨true, 20, 10⟩ ⟨false, none, 0, true⟩ rfl

/-- C9: an emitted sample line reports the measured duration as the
integral millisecond value obtained by rounding the higher-precision
measurement down (truncation toward zero): the printed value is `⌊d⌋`,
within one millisecond below the measurement `d`. -/
theorem c9_sample_value_floor (c : Config) (it : Iter) (d : ℚ)
    (h : it.probe = some d) (hd : 0 ≤ d)
    (hl : c.logTracing = true) (ht : (c.threshold : ℚ) < d) :
    iterLines c it = [Line.sample it.now ⌊d⌋] ∧
      (⌊d⌋ : ℚ) ≤ d ∧ d - 1 < (⌊d⌋ : ℚ) := by
  rcases it with ⟨eb, p, nw, ea⟩
  cases h
  refine ⟨?_, Int.floor_le d, sub_lt_iff_lt_add.mpr (Int.lt_floor_add_one d)⟩
  simp only [iterLines]
  rw [if_pos ⟨hl, ht⟩]
  unfold sampleValue toSecondsSigDigits cIntTrunc
  rw [div_mul_cancel₀ d (by norm_num : (1000 : ℚ) ≠ 0)]
  rw [if_pos hd]

theorem c9_sample_value_floor_witness :
    iterLines ⟨true, 20, 10⟩ ⟨false, some (41/2), 3, false⟩ =
        [Line.sample 3 ⌊(41/2 : ℚ)⌋] ∧
      (⌊(41/2 : ℚ)⌋ : ℚ) ≤ 41/2 ∧ (41/2 : ℚ) - 1 < (⌊(41/2 : ℚ)⌋ : ℚ) :=
  c9_sample_value_floor ⟨true, 20, 10⟩ ⟨false, some (41/2), 3, false⟩ (41/2) rfl
    (by norm_num) rfl (by norm_num)
